import Mathlib

/-!
Shallow embedding of the team-channel provisioning subsystem of the
gamejambot repository (src/channel.rs), together with a model of the
persisted ownership store whose implementation (state.rs) is not in the
source tree and is therefore modelled from the spec.

The remote Discord API is modelled as an oracle (`RemoteResponses`): the
embedding records which creation/deletion calls the code would issue and
threads the oracle's answers through the same control flow as the source.
-/

namespace GameJamBot

abbrev UserId := Nat
abbrev ChannelId := Nat
abbrev GuildId := Nat
abbrev DiscordError := Nat

/-- Channel kinds requested from the remote API (twilight `ChannelType`). -/
inductive ChannelType
  | guildCategory
  | guildText
  | guildVoice
  deriving DecidableEq, Repr

/-- Channel resources returned by the remote API (twilight `GuildChannel`),
each carrying its remote id. -/
inductive GuildChannel
  | category (id : ChannelId)
  | text (id : ChannelId)
  | voice (id : ChannelId)
  deriving DecidableEq, Repr

/-- Modelled from the spec: `OwnershipRecord` (§3) — the value stored per
owner in the ownership store; state.rs is absent from the source tree.
The id stored is the category id (the anchor used for deletion). -/
structure OwnershipRecord where
  displayName : String
  categoryId : ChannelId
  deriving DecidableEq, Repr

/-- Modelled from the spec: the `OwnershipStore` / `PersistentState` of
state.rs (absent from the source tree), a mapping owner → record,
embedded as an association list looked up by first match. -/
abbrev PersistentState := List (UserId × OwnershipRecord)

/-- Modelled from the spec: `PersistentState::get_channel_info` — the
record currently held for a user, if any. -/
def get_channel_info (s : PersistentState) (u : UserId) : Option OwnershipRecord :=
  (s.find? (fun p => p.1 == u)).map (fun p => p.2)

/-- Modelled from the spec: `PersistentState::is_allowed_channel` — true
exactly when the user holds no record (so creation is allowed). -/
def is_allowed_channel (s : PersistentState) (u : UserId) : Bool :=
  (get_channel_info s u).isNone

/-- Modelled from the spec: `PersistentState::register_channel_creation` —
commit a new ownership record for the user. -/
def register_channel_creation (s : PersistentState) (u : UserId)
    (name : String) (cat : ChannelId) : PersistentState :=
  (u, ⟨name, cat⟩) :: s

/-- Modelled from the spec: `PersistentState::remove_channel` — drop the
user's record from the store. -/
def remove_channel (s : PersistentState) (u : UserId) : PersistentState :=
  s.filter (fun p => p.1 ≠ u)

def backtick : Char := Char.ofNat 96
def lbraceChar : Char := Char.ofNat 123
def rbraceChar : Char := Char.ofNat 125

/-- The character class of the source's MARKDOWN_ESCAPE_REGEX
`[-_+*"#=.⋅\\<>{}]+` (the dot-like character is U+22C5). -/
def isMarkdownSpecial (c : Char) : Bool :=
  c == '-' || c == '_' || c == '+' || c == '*' || c == '\"' || c == '#' ||
  c == '=' || c == '.' || c == '⋅' || c == '\\' || c == '<' || c == '>' ||
  c == lbraceChar || c == rbraceChar

/-- `Regex::replace_all` with pattern `[class]+` and replacement `\{run}`:
each maximal run of class characters is prefixed by one backslash. The
flag records whether we are inside a run already matched. -/
def escapeGo : Bool → List Char → List Char
  | _, [] => []
  | inRun, c :: rest =>
    if isMarkdownSpecial c then
      if inRun then c :: escapeGo true rest
      else '\\' :: c :: escapeGo true rest
    else
      c :: escapeGo false rest

/-- The markdown-escape transformation applied in `create_team`. -/
def markdownEscape (s : String) : String := ⟨escapeGo false s.data⟩

/-- The source's INVALID_REGEX `[`]+` matches iff a backtick occurs. -/
def containsBacktick (s : String) : Bool := s.data.any (fun c => c == backtick)

/-- `rest_command.join(" ")`. -/
def joinSpace (tokens : List String) : String := String.intercalate " " tokens

/-- `ChannelCreationError` of channel.rs. -/
inductive ChannelCreationError
  | AlreadyCreated (user : UserId)
  | NoName
  | InvalidName
  | CategoryNotCreated
  | TextNotCreated
  | VoiceNotCreated
  | CategoryCreationFailed (e : DiscordError)
  | TextCreationFailed (e : DiscordError)
  | VoiceCreationFailed (e : DiscordError)
  deriving DecidableEq, Repr

/-- `CreatedTeam` of channel.rs. -/
structure CreatedTeam where
  game_name : String
  text_id : ChannelId
  deriving DecidableEq, Repr

/-- One `create_guild_channel` request as issued by the source: guild,
name, requested kind, optional parent id, optional topic. -/
structure CreateCall where
  guild : GuildId
  name : String
  kind : ChannelType
  parent : Option ChannelId
  topic : Option String
  deriving DecidableEq, Repr

/-- Oracle for the three remote creation calls of `create_team`, in the
order the source issues them. -/
structure RemoteResponses where
  categoryResp : Except DiscordError GuildChannel
  textResp : Except DiscordError GuildChannel
  voiceResp : Except DiscordError GuildChannel

/-- Result, resulting store and issued remote-call trace of one
`create_team` run. -/
structure CreateTeamOutcome where
  result : Except ChannelCreationError CreatedTeam
  store : PersistentState
  calls : List CreateCall

/-- Embedding of `create_team` (channel.rs lines 130-207), with the
ownership store passed and returned explicitly and the remote API as an
oracle. -/
def create_team (rest_command : List String) (guild : GuildId) (user : UserId)
    (resp : RemoteResponses) (store : PersistentState) : CreateTeamOutcome :=
  if !(is_allowed_channel store user) then
    ⟨.error (.AlreadyCreated user), store, []⟩
  else
    let game_name := joinSpace rest_command
    if rest_command.length = 0 then
      ⟨.error .NoName, store, []⟩
    else if containsBacktick game_name then
      ⟨.error .InvalidName, store, []⟩
    else
      let category_name := "Team: " ++ game_name
      let catCall : CreateCall := ⟨guild, category_name, .guildCategory, none, none⟩
      match resp.categoryResp with
      | .error e => ⟨.error (.CategoryCreationFailed e), store, [catCall]⟩
      | .ok maybe_category =>
        match maybe_category with
        | .category catId =>
          let textCall : CreateCall :=
            ⟨guild, game_name, .guildText, some catId,
              some ("Work on and playtesting of the game " ++ game_name ++ ".")⟩
          match resp.textResp with
          | .error e => ⟨.error (.TextCreationFailed e), store, [catCall, textCall]⟩
          | .ok maybe_text =>
            match maybe_text with
            | .category textId =>
              -- source matches the Category variant here, not Text
              -- ("For some reason it isn't a GuildChannel::Text")
              let voiceCall : CreateCall := ⟨guild, game_name, .guildVoice, some catId, none⟩
              match resp.voiceResp with
              | .error e =>
                ⟨.error (.VoiceCreationFailed e), store, [catCall, textCall, voiceCall]⟩
              | .ok _ =>
                -- source performs no type check on the voice result
                let safe := markdownEscape game_name
                ⟨.ok ⟨safe, textId⟩,
                  register_channel_creation store user safe catId,
                  [catCall, textCall, voiceCall]⟩
            | _ => ⟨.error .TextNotCreated, store, [catCall, textCall]⟩
        | _ => ⟨.error .CategoryNotCreated, store, [catCall]⟩

/-- Modelled from the spec: the JAMMER role name of role.rs (absent from
the source tree); only its text is interpolated into one reply. -/
def JAMMER : String := "JAMMER"

/-- The `Display` impl of `ChannelCreationError`, reading the store for
the AlreadyCreated case exactly as the source does. -/
def render_creation_error (store : PersistentState) : ChannelCreationError → String
  | .AlreadyCreated user =>
    match get_channel_info store user with
    | some info =>
      "You have already created channels for your game " ++ info.displayName ++
        " here: <#" ++ toString info.categoryId ++ ">"
    | none =>
      -- the source unwraps here; unreachable when the record exists
      "You have already created channels for your game"
  | .NoName => "You need to specify a game name."
  | .CategoryNotCreated => "I asked Discord for a category but got something else. 🤔"
  | .TextNotCreated => "I asked Discord for a text channel but got something else. 🤔"
  | .VoiceNotCreated => "I asked Discord for a voice channel but got something else. 🤔"
  | .InvalidName => "Game names cannot contain the character `"
  | .CategoryCreationFailed _ => "Category creation failed."
  | .TextCreationFailed _ => "Text channel creation failed."
  | .VoiceCreationFailed _ => "Voice channel creation failed."

/-- Observable outcome of one command-handler run: final store, replies
sent to the chat surface, remote creation calls and deletion calls. -/
structure HandlerOutcome where
  store : PersistentState
  replies : List String
  createCalls : List CreateCall
  deleteCalls : List ChannelId

/-- Embedding of `handle_create_channels` (channel.rs lines 18-67); the
role-membership lookups are the boolean oracle inputs. -/
def handle_create_channels (rest_command : List String) (guild : GuildId)
    (user : UserId) (isJammer isOrganizer : Bool) (resp : RemoteResponses)
    (store : PersistentState) : HandlerOutcome :=
  if !isJammer && !isOrganizer then
    ⟨store,
      ["Oo, you found a secret command. 😉\nYou will be able to use this " ++
        "command once you have been assigned the **" ++ JAMMER ++ "** role.\n" ++
        "You will be able to get this role once the jam has started. The " ++
        "details on how to do so will be made available at that point."],
      [], []⟩
  else
    let o := create_team rest_command guild user resp store
    match o.result with
    | .ok team =>
      ⟨o.store,
        ["Channels created for your game " ++ team.game_name ++
          " here: <#" ++ toString team.text_id ++ ">"],
        o.calls, []⟩
    | .error e =>
      ⟨o.store, [render_creation_error o.store e], o.calls, []⟩

/-- Rust `str::parse::<u64>`: optional leading plus sign, then one or
more decimal digits, rejecting values outside u64 range. -/
def parseU64 (s : String) : Option Nat :=
  let body := match s.data with
    | c :: rest => if c == '+' then rest else s.data
    | [] => []
  if body.isEmpty then none
  else if body.all Char.isDigit then
    let n := body.foldl (fun acc c => acc * 10 + (c.toNat - 48)) 0
    if n < 2 ^ 64 then some n else none
  else none

/-- Embedding of `handle_remove_channels` (channel.rs lines 69-128): the
organizer role check is an oracle boolean, the single remote
`delete_channel` call an oracle response. -/
def handle_remove_channels (rest_command : List String) (isOrganizer : Bool)
    (deleteResp : Except DiscordError Unit) (store : PersistentState) :
    HandlerOutcome :=
  if !isOrganizer then
    ⟨store, ["WAT"], [], []⟩
  else if rest_command.length > 0 then
    match parseU64 (String.join rest_command) with
    | none => ⟨store, ["That user id is invalid."], [], []⟩
    | some id =>
      if is_allowed_channel store id then
        ⟨store, ["That user does not have any team channels."], [], []⟩
      else
        match get_channel_info store id with
        | some info =>
          match deleteResp with
          | .ok _ => ⟨remove_channel store id, [], [], [info.categoryId]⟩
          | .error _ => ⟨store, [], [], [info.categoryId]⟩
        | none =>
          -- the source unwraps; unreachable since is_allowed_channel is false
          ⟨store, [], [], []⟩
  else
    ⟨store, ["You forgot to provide a user id."], [], []⟩

/-- Whether a creation response is a successful category result. -/
def isCategoryOk : Except DiscordError GuildChannel → Bool
  | .ok (.category _) => true
  | _ => false

/-- Whether a returned channel is the category variant. -/
def isCategoryChannel : GuildChannel → Bool
  | .category _ => true
  | _ => false

/-- Whether a creation response succeeded at all. -/
def isOkResp : Except DiscordError GuildChannel → Bool
  | .ok _ => true
  | .error _ => false

/-- Per-character escaping as the spec's sentence describes it: every
escapable character individually prefixed by a backslash. -/
def perCharEscape (s : String) : String :=
  ⟨s.data.flatMap (fun c => if isMarkdownSpecial c then ['\\', c] else [c])⟩

/-- No two adjacent characters are both escapable. -/
def noAdjacentSpecials : List Char → Bool
  | [] => true
  | [_] => true
  | a :: b :: rest =>
    !(isMarkdownSpecial a && isMarkdownSpecial b) && noAdjacentSpecials (b :: rest)

/-- The property every record in the store keeps: its display name is
backtick-free and is the markdown-escape of some backtick-free raw name. -/
def store_sanitized (s : PersistentState) : Prop :=
  ∀ p ∈ s, containsBacktick p.2.displayName = false ∧
    ∃ raw, containsBacktick raw = false ∧ p.2.displayName = markdownEscape raw

section HelperLemmas

theorem get_channel_info_remove_self (s : PersistentState) (u : UserId) :
    get_channel_info (remove_channel s u) u = none := by
  unfold get_channel_info remove_channel
  have h : List.find? (fun p => p.1 == u) (s.filter (fun p => p.1 ≠ u)) = none := by
    apply List.find?_eq_none.mpr
    intro p hp
    have h2 := (List.mem_filter.mp hp).2
    simp only [ne_eq, decide_not, Bool.not_eq_true', decide_eq_false_iff_not] at h2
    simp [h2]
  rw [h]
  rfl

theorem not_mem_keys_of_get_none (s : PersistentState) (u : UserId)
    (h : get_channel_info s u = none) : u ∉ s.map Prod.fst := by
  unfold get_channel_info at h
  have h2 : List.find? (fun p => p.1 == u) s = none := by
    cases hf : List.find? (fun p => p.1 == u) s with
    | none => rfl
    | some p => rw [hf] at h; simp at h
  intro hmem
  obtain ⟨p, hp, hpu⟩ := List.mem_map.mp hmem
  have := List.find?_eq_none.mp h2 p hp
  simp [hpu] at this

theorem escapeGo_backtick_free (l : List Char)
    (hl : l.any (fun c => c == backtick) = false) :
    ∀ b, (escapeGo b l).any (fun c => c == backtick) = false := by
  induction l with
  | nil => intro b; rfl
  | cons c rest ih =>
    intro b
    rw [List.any_cons, Bool.or_eq_false_iff] at hl
    have ihr := ih hl.2
    by_cases hc : isMarkdownSpecial c = true
    · cases b with
      | true => simp [escapeGo, hc, List.any_cons, hl.1, ihr true]
      | false =>
        simp [escapeGo, hc, List.any_cons, hl.1, ihr true,
          (by decide : (('\\' : Char) == backtick) = false)]
    · simp [escapeGo, hc, List.any_cons, hl.1, ihr false]

theorem containsBacktick_markdownEscape (s : String)
    (h : containsBacktick s = false) :
    containsBacktick (markdownEscape s) = false :=
  escapeGo_backtick_free s.data h false

theorem create_team_store_shape (rc : List String) (g : GuildId) (u : UserId)
    (resp : RemoteResponses) (s : PersistentState) :
    (create_team rc g u resp s).store = s ∨
    (get_channel_info s u = none ∧ containsBacktick (joinSpace rc) = false ∧
      ∃ c, (create_team rc g u resp s).store =
        (u, ⟨markdownEscape (joinSpace rc), c⟩) :: s) := by
  by_cases hallow : is_allowed_channel s u = true
  case neg =>
    left
    rw [Bool.not_eq_true] at hallow
    simp [create_team, hallow]
  case pos =>
    have hnone : get_channel_info s u = none := by
      unfold is_allowed_channel at hallow
      exact Option.isNone_iff_eq_none.mp hallow
    by_cases hlen : rc.length = 0
    · left; simp [create_team, hallow, hlen]
    · by_cases hbt : containsBacktick (joinSpace rc) = true
      · left; simp [create_team, hallow, hlen, hbt]
      · rw [Bool.not_eq_true] at hbt
        cases hcat : resp.categoryResp with
        | error e => left; simp [create_team, hallow, hlen, hbt, hcat]
        | ok ch =>
          cases ch with
          | category catId =>
            cases htext : resp.textResp with
            | error e => left; simp [create_team, hallow, hlen, hbt, hcat, htext]
            | ok ch2 =>
              cases ch2 with
              | category textId =>
                cases hvoice : resp.voiceResp with
                | error e =>
                  left; simp [create_team, hallow, hlen, hbt, hcat, htext, hvoice]
                | ok ch3 =>
                  right
                  refine ⟨hnone, hbt, catId, ?_⟩
                  simp [create_team, hallow, hlen, hbt, hcat, htext, hvoice,
                    register_channel_creation]
              | text i => left; simp [create_team, hallow, hlen, hbt, hcat, htext]
              | voice i => left; simp [create_team, hallow, hlen, hbt, hcat, htext]
          | text i => left; simp [create_team, hallow, hlen, hbt, hcat]
          | voice i => left; simp [create_team, hallow, hlen, hbt, hcat]

theorem create_team_keys_nodup (rc : List String) (g : GuildId) (u : UserId)
    (resp : RemoteResponses) (s : PersistentState)
    (hs : (s.map Prod.fst).Nodup) :
    (((create_team rc g u resp s).store).map Prod.fst).Nodup := by
  rcases create_team_store_shape rc g u resp s with h | ⟨hnone, _, c, h⟩
  · rw [h]; exact hs
  · rw [h]
    simp only [List.map_cons]
    exact List.nodup_cons.mpr ⟨not_mem_keys_of_get_none s u hnone, hs⟩

theorem remove_channels_store_shape (tokens : List String) (torg : Bool)
    (dresp : Except DiscordError Unit) (s : PersistentState) :
    (handle_remove_channels tokens torg dresp s).store = s ∨
    ∃ id, (handle_remove_channels tokens torg dresp s).store = remove_channel s id := by
  unfold handle_remove_channels
  split
  · left; rfl
  · split
    · split
      · left; rfl
      · split
        · left; rfl
        · split
          · split
            · right; exact ⟨_, rfl⟩
            · left; rfl
          · left; rfl
    · left; rfl

theorem noAdjacentSpecials_tail {c : Char} {rest : List Char}
    (h : noAdjacentSpecials (c :: rest) = true) :
    noAdjacentSpecials rest = true := by
  cases rest with
  | nil => rfl
  | cons d r2 =>
    unfold noAdjacentSpecials at h
    exact (Bool.and_eq_true _ _).mp h |>.2

theorem noAdjacentSpecials_head {c d : Char} {r2 : List Char}
    (h : noAdjacentSpecials (c :: d :: r2) = true)
    (hc : isMarkdownSpecial c = true) :
    isMarkdownSpecial d = false := by
  unfold noAdjacentSpecials at h
  have h1 := (Bool.and_eq_true _ _).mp h |>.1
  rw [Bool.not_eq_true'] at h1
  rw [hc] at h1
  simpa using h1

theorem escapeGo_noAdjacent (l : List Char) (h : noAdjacentSpecials l = true) :
    escapeGo false l =
      l.flatMap (fun c => if isMarkdownSpecial c then ['\\', c] else [c]) := by
  induction l with
  | nil => rfl
  | cons c rest ih =>
    have hrest := noAdjacentSpecials_tail h
    by_cases hc : isMarkdownSpecial c = true
    · have htail : escapeGo true rest = escapeGo false rest := by
        cases rest with
        | nil => rfl
        | cons d r2 =>
          have hd : isMarkdownSpecial d = false := noAdjacentSpecials_head h hc
          simp [escapeGo, hd]
      simp [escapeGo, hc, htail, ih hrest]
    · rw [Bool.not_eq_true] at hc
      simp [escapeGo, hc, ih hrest]

end HelperLemmas

/-- C1: if the ownership store already holds a record for a user, a
provision attempt by that user fails with AlreadyCreated, performs zero
remote creation calls and leaves the store unchanged; moreover provisioning
preserves at-most-one-record-per-user (distinct keys) for every store. -/
theorem single_ownership (rc : List String) (g : GuildId) (u : UserId)
    (resp : RemoteResponses) (store : PersistentState) (r : OwnershipRecord)
    (h : get_channel_info store u = some r) :
    (create_team rc g u resp store).result = .error (.AlreadyCreated u) ∧
    (create_team rc g u resp store).calls = [] ∧
    (create_team rc g u resp store).store = store ∧
    ∀ s : PersistentState, (s.map Prod.fst).Nodup →
      (((create_team rc g u resp s).store).map Prod.fst).Nodup := by
  have hallow : is_allowed_channel store u = false := by
    unfold is_allowed_channel; rw [h]; rfl
  refine ⟨?_, ?_, ?_, fun s hs => create_team_keys_nodup rc g u resp s hs⟩ <;>
    simp [create_team, hallow]

theorem single_ownership_w :
    get_channel_info [((0 : UserId), (⟨"g", 1⟩ : OwnershipRecord))] 0 =
      some ⟨"g", 1⟩ ∧
    (create_team ["x"] 0 0 ⟨.ok (.category 1), .ok (.category 2), .ok (.voice 3)⟩
        [(0, ⟨"g", 1⟩)]).result = .error (.AlreadyCreated 0) :=
  ⟨rfl,
    (single_ownership ["x"] 0 0 ⟨.ok (.category 1), .ok (.category 2), .ok (.voice 3)⟩
      [(0, ⟨"g", 1⟩)] ⟨"g", 1⟩ rfl).1⟩

/-- C7: a provision request by a user with no existing record whose joined
name contains a backtick fails with InvalidName, with zero remote calls and
the store unchanged. -/
theorem backtick_rejection (rc : List String) (g : GuildId) (u : UserId)
    (resp : RemoteResponses) (s : PersistentState)
    (hown : get_channel_info s u = none)
    (hbt : containsBacktick (joinSpace rc) = true) :
    (create_team rc g u resp s).result = .error .InvalidName ∧
    (create_team rc g u resp s).calls = [] ∧
    (create_team rc g u resp s).store = s := by
  have hallow : is_allowed_channel s u = true := by
    unfold is_allowed_channel; rw [hown]; rfl
  have hne : ¬(rc.length = 0) := by
    intro h0
    have hnil : rc = [] := List.length_eq_zero.mp h0
    subst hnil
    revert hbt
    decide
  refine ⟨?_, ?_, ?_⟩ <;> simp [create_team, hallow, hne, hbt]

theorem backtick_rejection_w :
    get_channel_info ([] : PersistentState) 0 = none ∧
    containsBacktick (joinSpace ["bad`name"]) = true ∧
    (create_team ["bad`name"] 0 0
        ⟨.ok (.category 1), .ok (.category 2), .ok (.voice 3)⟩ []).result =
      .error .InvalidName :=
  ⟨rfl, by decide,
    (backtick_rejection ["bad`name"] 0 0
      ⟨.ok (.category 1), .ok (.category 2), .ok (.voice 3)⟩ [] rfl (by decide)).1⟩

/-- C3: teardown with an existing record for the target user leaves the
store unchanged when the remote deletion fails, and removes the record
when the remote deletion succeeds. -/
theorem teardown_atomicity (tokens : List String) (id : UserId)
    (r : OwnershipRecord) (deleteResp : Except DiscordError Unit)
    (s : PersistentState)
    (hlen : 0 < tokens.length)
    (hparse : parseU64 (String.join tokens) = some id)
    (hrec : get_channel_info s id = some r) :
    (∀ e, deleteResp = .error e →
      (handle_remove_channels tokens true deleteResp s).store = s) ∧
    (deleteResp = .ok () →
      (handle_remove_channels tokens true deleteResp s).store = remove_channel s id ∧
      get_channel_info (handle_remove_channels tokens true deleteResp s).store id =
        none) := by
  have hallow : is_allowed_channel s id = false := by
    unfold is_allowed_channel; rw [hrec]; rfl
  constructor
  · intro e he
    subst he
    simp [handle_remove_channels, hlen, hparse, hallow, hrec]
  · intro hok
    subst hok
    constructor
    · simp [handle_remove_channels, hlen, hparse, hallow, hrec]
    · simp [handle_remove_channels, hlen, hparse, hallow, hrec,
        get_channel_info_remove_self]

theorem teardown_atomicity_w :
    0 < (["5"] : List String).length ∧
    parseU64 (String.join ["5"]) = some 5 ∧
    get_channel_info [((5 : UserId), (⟨"g", 7⟩ : OwnershipRecord))] 5 =
      some ⟨"g", 7⟩ ∧
    get_channel_info
      (handle_remove_channels ["5"] true (.ok ()) [(5, ⟨"g", 7⟩)]).store 5 = none :=
  ⟨by decide, by decide, rfl,
    ((teardown_atomicity ["5"] 5 ⟨"g", 7⟩ (.ok ()) [(5, ⟨"g", 7⟩)]
      (by decide) (by decide) rfl).2 rfl).2⟩

/-- C5 counterexample: a two-token numeric input does not fail with the
invalid-user-id reply; the tokens are concatenated and parsed as one
number, so the store is consulted (the handler answers about user 1234). -/
theorem teardown_validation_cex :
    (handle_remove_channels ["12", "34"] true (.ok ()) []).replies =
      ["That user does not have any team channels."] := by decide

/-- C5 amended: the target id is parsed from the concatenation of all
tokens; when that concatenation is not a valid u64, the handler replies
that the user id is invalid, leaves the store unchanged and performs no
remote deletion call. -/
theorem teardown_validation (tokens : List String)
    (deleteResp : Except DiscordError Unit) (s : PersistentState)
    (hlen : 0 < tokens.length)
    (hbad : parseU64 (String.join tokens) = none) :
    (handle_remove_channels tokens true deleteResp s).replies =
      ["That user id is invalid."] ∧
    (handle_remove_channels tokens true deleteResp s).store = s ∧
    (handle_remove_channels tokens true deleteResp s).deleteCalls = [] := by
  refine ⟨?_, ?_, ?_⟩ <;> simp [handle_remove_channels, hlen, hbad]

theorem teardown_validation_w :
    0 < (["abc"] : List String).length ∧
    parseU64 (String.join ["abc"]) = none ∧
    (handle_remove_channels ["abc"] true (.ok ()) []).replies =
      ["That user id is invalid."] :=
  ⟨by decide, by decide,
    (teardown_validation ["abc"] (.ok ()) [] (by decide) (by decide)).1⟩

/-- C2 counterexample: the voice-creation call returns a wrong-typed
(text) resource, yet provisioning succeeds and an ownership record is
written — the source never type-checks the voice result. -/
theorem no_partial_commit_cex :
    (create_team ["a"] 0 0
        ⟨.ok (.category 1), .ok (.category 2), .ok (.text 3)⟩ []).result =
      .ok ⟨"a", 2⟩ ∧
    (create_team ["a"] 0 0
        ⟨.ok (.category 1), .ok (.category 2), .ok (.text 3)⟩ []).store =
      [(0, ⟨"a", 1⟩)] := ⟨rfl, rfl⟩

/-- C2 amended: no record is written unless the category call returns a
category, the text call returns a category-typed value (the source's
accepted shape) and the voice call succeeds with any value; when all
three hold, exactly one record is written, holding the escaped display
name and the category id. -/
theorem no_partial_commit (rc : List String) (g : GuildId) (u : UserId)
    (resp : RemoteResponses) (s : PersistentState)
    (hown : get_channel_info s u = none) (hne : rc ≠ [])
    (hbt : containsBacktick (joinSpace rc) = false) :
    ((isCategoryOk resp.categoryResp && isCategoryOk resp.textResp &&
        isOkResp resp.voiceResp) = false →
      (create_team rc g u resp s).store = s) ∧
    (∀ c t, resp.categoryResp = .ok (.category c) →
      resp.textResp = .ok (.category t) → isOkResp resp.voiceResp = true →
      (create_team rc g u resp s).store =
        (u, ⟨markdownEscape (joinSpace rc), c⟩) :: s) := by
  have hallow : is_allowed_channel s u = true := by
    unfold is_allowed_channel; rw [hown]; rfl
  have hlen : ¬(rc.length = 0) := fun h0 => hne (List.length_eq_zero.mp h0)
  constructor
  · intro hfail
    cases hcat : resp.categoryResp with
    | error e => simp [create_team, hallow, hlen, hbt, hcat]
    | ok ch =>
      cases ch with
      | category c =>
        cases htext : resp.textResp with
        | error e => simp [create_team, hallow, hlen, hbt, hcat, htext]
        | ok ch2 =>
          cases ch2 with
          | category t =>
            cases hvoice : resp.voiceResp with
            | error e => simp [create_team, hallow, hlen, hbt, hcat, htext, hvoice]
            | ok ch3 =>
              exfalso
              rw [hcat, htext, hvoice] at hfail
              simp [isCategoryOk, isOkResp] at hfail
          | text i => simp [create_team, hallow, hlen, hbt, hcat, htext]
          | voice i => simp [create_team, hallow, hlen, hbt, hcat, htext]
      | text i => simp [create_team, hallow, hlen, hbt, hcat]
      | voice i => simp [create_team, hallow, hlen, hbt, hcat]
  · intro c t hcat htext hvoice
    cases hv : resp.voiceResp with
    | error e => rw [hv] at hvoice; simp [isOkResp] at hvoice
    | ok ch3 =>
      simp [create_team, hallow, hlen, hbt, hcat, htext, hv,
        register_channel_creation]

theorem no_partial_commit_w :
    get_channel_info ([] : PersistentState) 0 = none ∧
    (["a"] : List String) ≠ [] ∧
    containsBacktick (joinSpace ["a"]) = false ∧
    (create_team ["a"] 0 0 ⟨.error 9, .ok (.category 2), .ok (.voice 3)⟩ []).store =
      [] :=
  ⟨rfl, by decide, by decide,
    (no_partial_commit ["a"] 0 0 ⟨.error 9, .ok (.category 2), .ok (.voice 3)⟩ []
      rfl (by decide) (by decide)).1 rfl⟩

/-- C4 counterexample: a correctly-typed text result is rejected with
TextNotCreated (the source matches the Category variant for the text
call), while a wrong-typed (text) voice result is accepted and
provisioning succeeds — no VoiceNotCreated error is ever produced. -/
theorem type_mismatch_cex :
    (create_team ["a"] 0 0
        ⟨.ok (.category 1), .ok (.text 2), .ok (.voice 3)⟩ []).result =
      .error .TextNotCreated ∧
    (create_team ["b"] 1 1
        ⟨.ok (.category 4), .ok (.category 5), .ok (.text 6)⟩ []).result =
      .ok ⟨"b", 5⟩ := ⟨rfl, rfl⟩

/-- C4 amended: the category call rejects non-category results with
CategoryNotCreated and accepts a category; the text call accepts exactly
a category-typed result and rejects every other shape — including a
correctly-typed text result — with TextNotCreated; the voice call is
never type-checked: any successful voice response lets provisioning
succeed. -/
theorem type_mismatch_handling (rc : List String) (g : GuildId) (u : UserId)
    (resp : RemoteResponses) (s : PersistentState)
    (hown : get_channel_info s u = none) (hne : rc ≠ [])
    (hbt : containsBacktick (joinSpace rc) = false) :
    (∀ ch, resp.categoryResp = .ok ch → isCategoryChannel ch = false →
      (create_team rc g u resp s).result = .error .CategoryNotCreated) ∧
    (∀ c ch, resp.categoryResp = .ok (.category c) → resp.textResp = .ok ch →
      isCategoryChannel ch = false →
      (create_team rc g u resp s).result = .error .TextNotCreated) ∧
    (∀ c t ch, resp.categoryResp = .ok (.category c) →
      resp.textResp = .ok (.category t) → resp.voiceResp = .ok ch →
      (create_team rc g u resp s).result =
        .ok ⟨markdownEscape (joinSpace rc), t⟩) := by
  have hallow : is_allowed_channel s u = true := by
    unfold is_allowed_channel; rw [hown]; rfl
  have hlen : ¬(rc.length = 0) := fun h0 => hne (List.length_eq_zero.mp h0)
  refine ⟨?_, ?_, ?_⟩
  · intro ch hcat hch
    cases ch with
    | category i => simp [isCategoryChannel] at hch
    | text i => simp [create_team, hallow, hlen, hbt, hcat]
    | voice i => simp [create_team, hallow, hlen, hbt, hcat]
  · intro c ch hcat htext hch
    cases ch with
    | category i => simp [isCategoryChannel] at hch
    | text i => simp [create_team, hallow, hlen, hbt, hcat, htext]
    | voice i => simp [create_team, hallow, hlen, hbt, hcat, htext]
  · intro c t ch hcat htext hvoice
    simp [create_team, hallow, hlen, hbt, hcat, htext, hvoice]

theorem type_mismatch_handling_w :
    get_channel_info ([] : PersistentState) 0 = none ∧
    (["a"] : List String) ≠ [] ∧
    containsBacktick (joinSpace ["a"]) = false ∧
    (create_team ["a"] 0 0 ⟨.ok (.voice 1), .ok (.category 2), .ok (.voice 3)⟩
        []).result = .error .CategoryNotCreated :=
  ⟨rfl, by decide, by decide,
    (type_mismatch_handling ["a"] 0 0
        ⟨.ok (.voice 1), .ok (.category 2), .ok (.voice 3)⟩ []
        rfl (by decide) (by decide)).1 (.voice 1) rfl rfl⟩

/-- C8: remote creation calls are issued in the order category, text,
voice, fail-fast (later calls skipped on earlier failure); the category
is named with the pre-escape raw joined name, and the text channel is
parented to the created category with the playtesting topic. -/
theorem creation_sequencing (rc : List String) (g : GuildId) (u : UserId)
    (resp : RemoteResponses) (s : PersistentState)
    (hown : get_channel_info s u = none) (hne : rc ≠ [])
    (hbt : containsBacktick (joinSpace rc) = false) :
    (∀ e, resp.categoryResp = .error e →
      (create_team rc g u resp s).calls =
        [⟨g, "Team: " ++ joinSpace rc, .guildCategory, none, none⟩]) ∧
    (∀ c, resp.categoryResp = .ok (.category c) →
      (∀ e, resp.textResp = .error e →
        (create_team rc g u resp s).calls =
          [⟨g, "Team: " ++ joinSpace rc, .guildCategory, none, none⟩,
           ⟨g, joinSpace rc, .guildText, some c,
             some ("Work on and playtesting of the game " ++ joinSpace rc ++ ".")⟩]) ∧
      (∀ t, resp.textResp = .ok (.category t) →
        (create_team rc g u resp s).calls =
          [⟨g, "Team: " ++ joinSpace rc, .guildCategory, none, none⟩,
           ⟨g, joinSpace rc, .guildText, some c,
             some ("Work on and playtesting of the game " ++ joinSpace rc ++ ".")⟩,
           ⟨g, joinSpace rc, .guildVoice, some c, none⟩])) := by
  have hallow : is_allowed_channel s u = true := by
    unfold is_allowed_channel; rw [hown]; rfl
  have hlen : ¬(rc.length = 0) := fun h0 => hne (List.length_eq_zero.mp h0)
  constructor
  · intro e hcat
    simp [create_team, hallow, hlen, hbt, hcat]
  · intro c hcat
    constructor
    · intro e htext
      simp [create_team, hallow, hlen, hbt, hcat, htext]
    · intro t htext
      cases hvoice : resp.voiceResp with
      | error e => simp [create_team, hallow, hlen, hbt, hcat, htext, hvoice]
      | ok ch => simp [create_team, hallow, hlen, hbt, hcat, htext, hvoice]

theorem creation_sequencing_w :
    get_channel_info ([] : PersistentState) 0 = none ∧
    (["Pixel", "Quest"] : List String) ≠ [] ∧
    containsBacktick (joinSpace ["Pixel", "Quest"]) = false ∧
    (create_team ["Pixel", "Quest"] 0 0 ⟨.error 9, .error 9, .error 9⟩ []).calls =
      [⟨0, "Team: " ++ joinSpace ["Pixel", "Quest"], .guildCategory, none, none⟩] :=
  ⟨rfl, by decide, by decide,
    (creation_sequencing ["Pixel", "Quest"] 0 0 ⟨.error 9, .error 9, .error 9⟩ []
      rfl (by decide) (by decide)).1 9 rfl⟩

/-- C6 counterexample: two adjacent escapable characters receive a single
backslash for the whole run (the regex matches `[class]+`), not one per
character; and the middle dot U+00B7 is not in the code's escape set
(which holds the dot operator U+22C5), so it passes through unescaped. -/
theorem sanitizer_cex :
    markdownEscape "--" = "\\--" ∧ markdownEscape "--" ≠ "\\-\\-" ∧
    markdownEscape "·" = "·" ∧ markdownEscape "·" ≠ "\\·" :=
  ⟨by decide, by decide, by decide, by decide⟩

/-- C6 amended: escaping prefixes each maximal run of consecutive
escapable characters (the set uses the dot operator U+22C5, not the
middle dot U+00B7) with a single backslash; hence the per-character
description holds exactly on names with no two adjacent escapable
characters. -/
theorem sanitizer_escaping (s : String) (h : noAdjacentSpecials s.data = true) :
    markdownEscape s = perCharEscape s := by
  unfold markdownEscape perCharEscape
  rw [escapeGo_noAdjacent s.data h]

theorem sanitizer_escaping_w :
    noAdjacentSpecials ("a-b.c".data) = true ∧
    markdownEscape "a-b.c" = perCharEscape "a-b.c" ∧
    perCharEscape "a-b.c" = "a\\-b\\.c" :=
  ⟨by decide, sanitizer_escaping "a-b.c" (by decide), by decide⟩

/-- C9 counterexample: an organizer tears down a user that owns a record;
whether the remote deletion fails or succeeds, the handler sends no reply
at all to the chat surface (the outcome is only logged). -/
theorem single_reply_cex :
    (handle_remove_channels ["5"] true (.error 0) [(5, ⟨"g", 7⟩)]).replies = [] ∧
    (handle_remove_channels ["5"] true (.ok ()) [(5, ⟨"g", 7⟩)]).replies = [] :=
  ⟨by decide, by decide⟩

/-- C9 amended: the create handler always produces exactly one reply; the
remove handler produces exactly one reply except when the target user owns
a record and a deletion is attempted, in which case it produces none. -/
theorem single_reply (rc : List String) (g : GuildId) (u : UserId)
    (jam org : Bool) (resp : RemoteResponses) (s : PersistentState)
    (tokens : List String) (torg : Bool) (dresp : Except DiscordError Unit) :
    (handle_create_channels rc g u jam org resp s).replies.length = 1 ∧
    ((handle_remove_channels tokens torg dresp s).replies.length = 1 ∨
      ((handle_remove_channels tokens torg dresp s).replies = [] ∧
        torg = true ∧ ∃ id info, parseU64 (String.join tokens) = some id ∧
          get_channel_info s id = some info)) := by
  constructor
  · unfold handle_create_channels
    split
    · rfl
    · cases hres : (create_team rc g u resp s).result <;> simp [hres]
  · unfold handle_remove_channels
    split
    · left; rfl
    next h =>
      have htorg : torg = true := by simpa using h
      split
      · split
        · left; rfl
        next id hparse =>
          split
          · left; rfl
          next hallow =>
            split
            next info hinfo =>
              split
              · right; exact ⟨rfl, htorg, id, info, hparse, hinfo⟩
              · right; exact ⟨rfl, htorg, id, info, hparse, hinfo⟩
            next hnone =>
              exfalso
              apply hallow
              unfold is_allowed_channel
              rw [hnone]
              rfl
      · left; rfl

/-- C10: every record in a store whose records are all backtick-free
markdown-escapes of backtick-free raw names keeps that property across
provisioning and teardown; a freshly written record's display name is the
escape of the raw joined name, which was checked backtick-free. -/
theorem store_content_invariant (rc : List String) (g : GuildId) (u : UserId)
    (resp : RemoteResponses) (tokens : List String) (torg : Bool)
    (dresp : Except DiscordError Unit) (s : PersistentState)
    (hs : store_sanitized s) :
    store_sanitized (create_team rc g u resp s).store ∧
    store_sanitized (handle_remove_channels tokens torg dresp s).store := by
  constructor
  · rcases create_team_store_shape rc g u resp s with h | ⟨hnone, hbt, c, h⟩
    · rw [h]; exact hs
    · rw [h]
      intro p hp
      rcases List.mem_cons.mp hp with hp1 | hp2
      · subst hp1
        exact ⟨containsBacktick_markdownEscape _ hbt, joinSpace rc, hbt, rfl⟩
      · exact hs p hp2
  · rcases remove_channels_store_shape tokens torg dresp s with h | ⟨id, h⟩
    · rw [h]; exact hs
    · rw [h]
      intro p hp
      unfold remove_channel at hp
      exact hs p (List.mem_filter.mp hp).1

theorem store_content_invariant_w :
    store_sanitized ([] : PersistentState) ∧
    store_sanitized (create_team ["Pixel", "Quest"] 0 0
      ⟨.ok (.category 1), .ok (.category 2), .ok (.voice 3)⟩ []).store :=
  ⟨by simp [store_sanitized],
    (store_content_invariant ["Pixel", "Quest"] 0 0
      ⟨.ok (.category 1), .ok (.category 2), .ok (.voice 3)⟩ ["5"] true (.ok ()) []
      (by simp [store_sanitized])).1⟩

end GameJamBot
